import Mathlib

/-!
Verification of the fixture-record normalization and parametrization-assembly
logic of `pytest-fixtures-fixtures` (`src/pytest_fixtures_fixtures/parametrize.py`).

The Python module is embedded shallowly:

* Python/JSON/YAML values are the inductive `Value`; Python `dict`s are
  association lists where a later binding for the same key overwrites the
  earlier one (`pyDictGet` returns the last binding, `pyDictKeys` keeps the
  first occurrence of each key, exactly like `dict` insertion semantics).
* `open`/`json.load`/`yaml.load`/`csv.reader` are external libraries; readers
  receive their already-parsed output (a `Value` for JSON/YAML, the tokenized
  rows for CSV, the raw lines plus a `json.loads` oracle for JSONL).
* raised exceptions become `Except PyError`.
-/

set_option autoImplicit false

universe u

/-- A parsed Python value as produced by `json.load` / `yaml.load` /
`csv.DictReader`: null, booleans, integers, strings, lists and dictionaries
(dictionaries as insertion-ordered association lists). -/
inductive Value where
  | null : Value
  | bool : Bool → Value
  | int : Int → Value
  | str : String → Value
  | list : List Value → Value
  | dict : List (String × Value) → Value

/-- The exceptions raised by `parametrize.py`: `ValueError`,
`FileNotFoundError` and `ImportError`, each carrying its message. -/
inductive PyError where
  | valueError : String → PyError
  | fileNotFoundError : String → PyError
  | importError : String → PyError

/-- Membership test on a list, mirroring Python's `in` for `set` arguments. -/
def memKey {κ : Type u} [DecidableEq κ] (k : κ) : List κ → Bool
  | [] => false
  | a :: rest => if a = k then true else memKey k rest

/-- Python `set(l1) == set(l2)`: unordered equality of the two key lists. -/
def keySetEq {κ : Type u} [DecidableEq κ] (l1 l2 : List κ) : Bool :=
  (l1.all fun k => memKey k l2) && (l2.all fun k => memKey k l1)

/-- Python `d[k]` on a dict represented as an association list built by
successive insertions: the last binding for `k` wins. -/
def pyDictGet {κ : Type u} [DecidableEq κ] : List (κ × Value) → κ → Option Value
  | [], _ => none
  | (a, v) :: rest, k =>
    match pyDictGet rest k with
    | some v2 => some v2
    | none => if a = k then some v else none

/-- Keep the first occurrence of every element not in `seen`, dropping later
duplicates. -/
def firstDedupAux {κ : Type u} [DecidableEq κ] (seen : List κ) : List κ → List κ
  | [] => []
  | k :: rest =>
    if memKey k seen then firstDedupAux seen rest
    else k :: firstDedupAux (k :: seen) rest

/-- Keep the first occurrence of every element, dropping later duplicates:
the key order of a Python dict built by successive insertions. -/
def firstDedup {κ : Type u} [DecidableEq κ] (l : List κ) : List κ :=
  firstDedupAux [] l

/-- Python `list(d.keys())` for a dict represented as an association list. -/
def pyDictKeys {κ : Type u} [DecidableEq κ] (entries : List (κ × Value)) : List κ :=
  firstDedup (entries.map Prod.fst)

/-- Python `",".join(fieldnames)`. -/
def commaJoin : List String → String
  | [] => ""
  | [s] => s
  | s :: rest => s ++ "," ++ commaJoin rest

/-- Python `tuple(item[field] for field in fieldnames)`: the record's values in
canonical field order.  The callers only reach this after checking that every
`field` is a key of `entries`, so the `filterMap` never drops an entry. -/
def recordTuple (fieldnames : List String) (entries : List (String × Value)) : List Value :=
  fieldnames.filterMap fun f => pyDictGet entries f

/-- The shared per-record loop of the JSON/JSONL/YAML readers
(`parametrize.py`, the `for item in data:` loops): reject a non-dict item,
reject an item whose key set differs from the canonical `fieldnames`,
otherwise emit the record's tuple.  `kind` is `"JSON"`, `"JSONL"` or `"YAML"`,
matching the messages of the three textually-identical loops in the source. -/
def buildParamValues (kind filePath : String) (fieldnames : List String) :
    List Value → Except PyError (List (List Value))
  | [] => .ok []
  | Value.dict entries :: rest =>
    if keySetEq (pyDictKeys entries) fieldnames then
      match buildParamValues kind filePath fieldnames rest with
      | .ok tail => .ok (recordTuple fieldnames entries :: tail)
      | .error e => .error e
    else
      .error (.valueError ("All items in " ++ kind ++ " file " ++ filePath ++ " must have the same keys"))
  | _ :: _ => .error (.valueError ("All items in " ++ kind ++ " file " ++ filePath ++ " must be dictionaries"))

/-- The part of `_read_json_for_parametrize` after `json.load` returned a
list: empty-list check, first-item dict check, field names from the first
item's keys, then the validation loop over all items. -/
def read_json_records (filePath : String) : List Value → Except PyError (String × List (List Value))
  | [] => .error (.valueError ("JSON file " ++ filePath ++ " contains empty list"))
  | Value.dict entries :: rest =>
    match buildParamValues "JSON" filePath (pyDictKeys entries) (Value.dict entries :: rest) with
    | .ok vals => .ok (commaJoin (pyDictKeys entries), vals)
    | .error e => .error e
  | _ :: _ => .error (.valueError ("JSON file " ++ filePath ++ " must contain a list of dictionaries"))

/-- Embedding of `_read_json_for_parametrize`: `data` is the value returned by
`json.load(f)`. -/
def read_json_for_parametrize (filePath : String) (data : Value) :
    Except PyError (String × List (List Value)) :=
  match data with
  | Value.list items => read_json_records filePath items
  | _ => .error (.valueError ("JSON file " ++ filePath ++ " must contain a list of objects"))

/-- Characters stripped by Python `str.strip()` (the ASCII whitespace that can
occur in fixture files). -/
def isSpaceChar (c : Char) : Bool :=
  c = ' ' || c = '\t' || c = '\n' || c = '\r'

/-- Python `line.strip()`. -/
def pyStrip (s : String) : String :=
  String.mk (((s.toList.dropWhile isSpaceChar).reverse.dropWhile isSpaceChar).reverse)

/-- The record-acquisition loop of `_read_jsonl_for_parametrize`: strip each
line, skip blank lines, parse the rest with `json.loads` (the oracle
`parse`). -/
def jsonlRecords (parse : String → Value) (lines : List String) : List Value :=
  lines.filterMap fun line =>
    if pyStrip line = "" then none else some (parse (pyStrip line))

/-- The part of `_read_jsonl_for_parametrize` after the line loop collected
the parsed records: empty check, first-item dict check, then the validation
loop. -/
def read_jsonl_records (filePath : String) : List Value → Except PyError (String × List (List Value))
  | [] => .error (.valueError ("JSONL file " ++ filePath ++ " contains no data"))
  | Value.dict entries :: rest =>
    match buildParamValues "JSONL" filePath (pyDictKeys entries) (Value.dict entries :: rest) with
    | .ok vals => .ok (commaJoin (pyDictKeys entries), vals)
    | .error e => .error e
  | _ :: _ => .error (.valueError ("JSONL file " ++ filePath ++ " must contain dictionaries"))

/-- Embedding of `_read_jsonl_for_parametrize`: `lines` are the lines of the
file, `parse` is the `json.loads` oracle. -/
def read_jsonl_for_parametrize (filePath : String) (parse : String → Value)
    (lines : List String) : Except PyError (String × List (List Value)) :=
  read_jsonl_records filePath (jsonlRecords parse lines)

/-- The part of `_read_yaml_for_parametrize` after `yaml.load` returned a
list: empty-list check, first-item dict check, then the validation loop. -/
def read_yaml_records (filePath : String) : List Value → Except PyError (String × List (List Value))
  | [] => .error (.valueError ("YAML file " ++ filePath ++ " contains empty list"))
  | Value.dict entries :: rest =>
    match buildParamValues "YAML" filePath (pyDictKeys entries) (Value.dict entries :: rest) with
    | .ok vals => .ok (commaJoin (pyDictKeys entries), vals)
    | .error e => .error e
  | _ :: _ => .error (.valueError ("YAML file " ++ filePath ++ " must contain a list of dictionaries"))

/-- Embedding of `_read_yaml_for_parametrize`: `yamlAvailable` is whether
`import yaml` succeeded (`yaml is not None`); `data` is the value returned by
`yaml.load(f, Loader=yaml.SafeLoader)`.  The availability check precedes any
use of the file, so the result for an unavailable library is independent of
`data`. -/
def read_yaml_for_parametrize (yamlAvailable : Bool) (filePath : String) (data : Value) :
    Except PyError (String × List (List Value)) :=
  match yamlAvailable with
  | false =>
    .error (.importError "PyYAML is required for YAML fixtures. Install it: https://pypi.org/project/PyYAML/")
  | true =>
    match data with
    | Value.list items => read_yaml_records filePath items
    | _ => .error (.valueError ("YAML file " ++ filePath ++ " must contain a list of objects"))

/-- Python `dict(zip(fieldnames, row))` followed by the padding
`csv.DictReader` applies to a short row: missing trailing fields get the
default `restval`, i.e. `None`. -/
def zipPad : List String → List String → List (Option String × Value)
  | [], _ => []
  | f :: fs, [] => (some f, Value.null) :: zipPad fs []
  | f :: fs, c :: cs => (some f, Value.str c) :: zipPad fs cs

/-- One record produced by `csv.DictReader` for the data row `row` under
header `fieldnames`: zip with `restval=None` padding, and when the row is
longer than the header the surplus cells are collected under the default
`restkey`, the key `None`. -/
def dictReaderRow (fieldnames row : List String) : List (Option String × Value) :=
  zipPad fieldnames row ++
    (if fieldnames.length < row.length then
      [(none, Value.list ((row.drop fieldnames.length).map Value.str))]
    else [])

/-- The `rows = list(reader)` step of `_read_csv_for_parametrize`: the
`csv.DictReader` records of the non-blank data rows (`DictReader.__next__`
skips rows `csv.reader` tokenized as `[]`). -/
def csvRecords (fieldnames : List String) (rest : List (List String)) :
    List (List (Option String × Value)) :=
  (rest.filter fun r => !r.isEmpty).map (dictReaderRow fieldnames)

/-- Embedding of `_read_csv_for_parametrize`: `csvRows` is the output of the
`csv` module's tokenizer on the file, one list of cells per line (`[]` for a
blank line, and nothing for a trailing newline &mdash; `csv.DictReader` skips
blank rows).  An empty `csvRows` is an empty file, where `reader.fieldnames`
is `None`. -/
def read_csv_for_parametrize (filePath : String) (csvRows : List (List String)) :
    Except PyError (String × List (List Value)) :=
  match csvRows with
  | [] => .error (.valueError ("CSV file " ++ filePath ++ " has no headers"))
  | fieldnames :: rest =>
    if fieldnames.isEmpty then
      .error (.valueError ("CSV file " ++ filePath ++ " has no headers"))
    else if (csvRecords fieldnames rest).isEmpty then
      .error (.valueError ("CSV file " ++ filePath ++ " has no data rows"))
    else
      .ok (commaJoin fieldnames,
           (csvRecords fieldnames rest).map fun rec =>
             fieldnames.filterMap fun f => pyDictGet rec (some f))

/-- Split a character list on a separator, like Python `str.split(sep)`:
`n` separators produce `n + 1` groups, possibly empty. -/
def splitOnChar (sep : Char) : List Char → List (List Char)
  | [] => [[]]
  | c :: rest =>
    let r := splitOnChar sep rest
    if c = sep then [] :: r
    else
      match r with
      | [] => [[c]]
      | g :: gs => (c :: g) :: gs

/-- The `csv` module's tokenization of simple (unquoted) CSV text: one row of
cells per line, a blank line giving no cells. -/
def simpleCsvParse (content : String) : List (List String) :=
  (splitOnChar '\n' content.toList).map fun line =>
    if line = [] then [] else (splitOnChar ',' line).map String.mk

/-- Index of the last occurrence of a dot in a character list, if any. -/
def rlastDotIdx : List Char → Option Nat
  | [] => none
  | c :: rest =>
    match rlastDotIdx rest with
    | some i => some (i + 1)
    | none => if c = '.' then some 0 else none

/-- Python `pathlib.Path(p).suffix`: the extension of the final path
component, including the dot; empty when the name has no dot, starts with its
only dot, or ends with the dot. -/
def pathSuffix (p : String) : String :=
  let name := ((splitOnChar '/' p.toList).filter fun part => part ≠ []).getLastD []
  match rlastDotIdx name with
  | some i => if 0 < i ∧ i + 1 < name.length then String.mk (name.drop i) else ""
  | none => ""

/-- Python `s.lower()` for ASCII strings. -/
def lowerStr (s : String) : String :=
  String.mk (s.toList.map Char.toLower)

/-- The format auto-detection block of `parametrize_from_fixture`: with
`file_format = "auto"` the format comes from the lower-cased extension of
`fixture_name`, otherwise `file_format` is taken as given (validated only
later, at dispatch). -/
def detect_format (fixture_name file_format : String) : Except PyError String :=
  if file_format = "auto" then
    let suffix := lowerStr (pathSuffix fixture_name)
    if suffix = ".csv" then .ok "csv"
    else if suffix = ".json" then .ok "json"
    else if suffix = ".jsonl" then .ok "jsonl"
    else if suffix = ".yaml" ∨ suffix = ".yml" then .ok "yaml"
    else .error (.valueError ("Cannot auto-detect format for file: " ++ fixture_name))
  else .ok file_format

/-- Embedding of `_get_fixtures_path`: the source ignores its `fixtures_dir`
argument (a `TODO` in the code) and always returns
`Path.cwd() / "tests" / "fixtures"`. -/
def get_fixtures_path (cwd : String) (fixtures_dir : Option String) : String :=
  cwd ++ "/tests/fixtures"

/-- The environment a decoration runs in: the working directory, which paths
exist, and what the external parsing libraries return for each path. -/
structure FsEnv where
  cwd : String
  fileExists : String → Bool
  csvContent : String → List (List String)
  jsonContent : String → Value
  jsonlLines : String → List String
  jsonParse : String → Value
  yamlAvailable : Bool
  yamlContent : String → Value

/-- The existence check and reader dispatch of `parametrize_from_fixture`
(after format detection): missing file raises `FileNotFoundError`, then the
detected format selects a reader, any other tag raises `ValueError`. -/
def dispatch_read (env : FsEnv) (fixture_name : String) (fixtures_dir : Option String)
    (detected_format : String) : Except PyError (String × List (List Value)) :=
  let fixture_path := get_fixtures_path env.cwd fixtures_dir ++ "/" ++ fixture_name
  if env.fileExists fixture_path then
    if detected_format = "csv" then
      read_csv_for_parametrize fixture_path (env.csvContent fixture_path)
    else if detected_format = "json" then
      read_json_for_parametrize fixture_path (env.jsonContent fixture_path)
    else if detected_format = "jsonl" then
      read_jsonl_for_parametrize fixture_path env.jsonParse (env.jsonlLines fixture_path)
    else if detected_format = "yaml" then
      read_yaml_for_parametrize env.yamlAvailable fixture_path (env.yamlContent fixture_path)
    else
      .error (.valueError ("Unsupported file format: " ++ detected_format))
  else
    .error (.fileNotFoundError ("Fixture " ++ fixture_name ++ " does not exist at " ++ fixture_path))

/-- Embedding of the body of `decorator` inside `parametrize_from_fixture`:
resolve the fixtures path, detect the format, check existence, dispatch to a
reader; the result is the `(argnames, argvalues)` pair handed to
`pytest.mark.parametrize`, or the exception raised at decoration time. -/
def parametrize_from_fixture (env : FsEnv) (fixture_name file_format : String)
    (fixtures_dir : Option String) : Except PyError (String × List (List Value)) :=
  match detect_format fixture_name file_format with
  | .error e => .error e
  | .ok detected_format => dispatch_read env fixture_name fixtures_dir detected_format

/-- A message names a file when the file's path occurs in it verbatim. -/
def mentionsFile (filePath msg : String) : Prop :=
  ∃ pre post, msg = pre ++ filePath ++ post

/-- A concrete environment for witnesses: nothing exists on disk. -/
def emptyEnv : FsEnv :=
  ⟨"/proj", fun _ => false, fun _ => [], fun _ => Value.null, fun _ => [],
   fun _ => Value.null, true, fun _ => Value.null⟩

/-- Boolean membership agrees with list membership. -/
theorem memKey_eq_true_iff {κ : Type u} [DecidableEq κ] (k : κ) (l : List κ) :
    memKey k l = true ↔ k ∈ l := by
  induction l with
  | nil => simp [memKey]
  | cons a rest ih =>
    simp only [memKey]
    by_cases h : a = k
    · subst h; simp
    · rw [if_neg h, ih]
      simp only [List.mem_cons]
      constructor
      · exact Or.inr
      · rintro (rfl | hk)
        · exact absurd rfl h
        · exact hk

/-- `keySetEq` is Python set equality: mutual containment of the key lists. -/
theorem keySetEq_true_iff {κ : Type u} [DecidableEq κ] (l1 l2 : List κ) :
    keySetEq l1 l2 = true ↔ (∀ k ∈ l1, k ∈ l2) ∧ (∀ k ∈ l2, k ∈ l1) := by
  simp [keySetEq, List.all_eq_true, memKey_eq_true_iff]

/-- Membership in the deduplication accumulator pass. -/
theorem mem_firstDedupAux {κ : Type u} [DecidableEq κ] (l : List κ) :
    ∀ (seen : List κ) (k : κ), k ∈ firstDedupAux seen l ↔ k ∈ l ∧ k ∉ seen := by
  induction l with
  | nil => simp [firstDedupAux]
  | cons a rest ih =>
    intro seen k
    simp only [firstDedupAux]
    by_cases ha : memKey a seen = true
    · rw [if_pos ha, ih]
      have ha2 : a ∈ seen := (memKey_eq_true_iff _ _).mp ha
      by_cases hka : k = a
      · subst hka; simp [ha2]
      · simp [hka]
    · rw [if_neg ha]
      have ha2 : a ∉ seen := fun hc => ha ((memKey_eq_true_iff _ _).mpr hc)
      simp only [List.mem_cons, ih, List.mem_cons]
      by_cases hka : k = a
      · subst hka; simp [ha2]
      · simp [hka]

/-- Deduplication preserves membership. -/
theorem mem_firstDedup {κ : Type u} [DecidableEq κ] (l : List κ) (k : κ) :
    k ∈ firstDedup l ↔ k ∈ l := by
  simp [firstDedup, mem_firstDedupAux]

/-- A key present in the association list is found by `pyDictGet`. -/
theorem pyDictGet_isSome_of_mem {κ : Type u} [DecidableEq κ] (l : List (κ × Value)) (k : κ)
    (h : k ∈ l.map Prod.fst) : (pyDictGet l k).isSome := by
  induction l with
  | nil => simp at h
  | cons p rest ih =>
    obtain ⟨a, v⟩ := p
    simp only [List.map_cons, List.mem_cons] at h
    simp only [pyDictGet]
    cases hr : pyDictGet rest k with
    | some v2 => simp
    | none =>
      rcases h with h | h
      · subst h; simp
      · have hs := ih h
        rw [hr] at hs
        simp at hs

/-- A value returned by `pyDictGet` is one of the stored values. -/
theorem pyDictGet_mem_snd {κ : Type u} [DecidableEq κ] (l : List (κ × Value)) (k : κ) (v : Value)
    (h : pyDictGet l k = some v) : v ∈ l.map Prod.snd := by
  induction l with
  | nil => simp [pyDictGet] at h
  | cons p rest ih =>
    obtain ⟨a, w⟩ := p
    simp only [pyDictGet] at h
    cases hr : pyDictGet rest k with
    | some v2 =>
      rw [hr] at h
      cases h
      exact List.mem_cons_of_mem _ (ih hr)
    | none =>
      rw [hr] at h
      by_cases ha : a = k
      · rw [if_pos ha] at h
        cases h
        exact List.mem_cons_self _ _
      · rw [if_neg ha] at h
        cases h

/-- `filterMap` with a never-failing function keeps the length. -/
theorem length_filterMap_of_isSome {α : Type u} {β : Type*} (f : α → Option β) (l : List α)
    (h : ∀ a ∈ l, (f a).isSome) : (l.filterMap f).length = l.length := by
  induction l with
  | nil => rfl
  | cons a rest ih =>
    obtain ⟨b, hb⟩ := Option.isSome_iff_exists.mp (h a (List.mem_cons_self a rest))
    rw [List.filterMap_cons, hb]
    simp [ih fun x hx => h x (List.mem_cons_of_mem _ hx)]

/-- When a record's key set equals the canonical field set, its tuple has one
value per field. -/
theorem recordTuple_length (fieldnames : List String) (entries : List (String × Value))
    (h : keySetEq (pyDictKeys entries) fieldnames = true) :
    (recordTuple fieldnames entries).length = fieldnames.length := by
  apply length_filterMap_of_isSome
  intro f hf
  apply pyDictGet_isSome_of_mem
  have h2 := ((keySetEq_true_iff _ _).mp h).2 f hf
  rw [pyDictKeys, mem_firstDedup] at h2
  exact h2

/-- Mapping a function over a list relates the list to its image pointwise. -/
theorem forall₂_map_self {α : Type u} {β : Type*} (f : α → β) (l : List α) :
    List.Forall₂ (fun a b => b = f a) l (l.map f) := by
  induction l with
  | nil => exact List.Forall₂.nil
  | cons a rest ih => exact List.Forall₂.cons rfl ih

/-- Success of the shared validation loop: one output tuple per input record,
in order, each record a dict with the canonical key set and its tuple the
canonical projection. -/
theorem buildParamValues_ok_forall₂ (kind filePath : String) (fieldnames : List String)
    (data : List Value) (vals : List (List Value))
    (h : buildParamValues kind filePath fieldnames data = .ok vals) :
    List.Forall₂ (fun item row => ∃ e2, item = Value.dict e2
      ∧ keySetEq (pyDictKeys e2) fieldnames = true
      ∧ row = recordTuple fieldnames e2) data vals := by
  induction data generalizing vals with
  | nil =>
    simp only [buildParamValues] at h
    cases h
    exact List.Forall₂.nil
  | cons item rest ih =>
    cases item with
    | dict entries =>
      simp only [buildParamValues] at h
      by_cases hk : keySetEq (pyDictKeys entries) fieldnames = true
      · rw [if_pos hk] at h
        cases hb : buildParamValues kind filePath fieldnames rest with
        | ok tail =>
          rw [hb] at h
          cases h
          exact List.Forall₂.cons ⟨entries, rfl, hk, rfl⟩ (ih tail hb)
        | error e => rw [hb] at h; cases h
      · rw [if_neg hk] at h; cases h
    | null => simp only [buildParamValues] at h; cases h
    | bool b => simp only [buildParamValues] at h; cases h
    | int n => simp only [buildParamValues] at h; cases h
    | str s => simp only [buildParamValues] at h; cases h
    | list xs => simp only [buildParamValues] at h; cases h

/-- Failure of the shared validation loop: a dict record whose key set differs
from the canonical one forces a `ValueError` whose message names the file. -/
theorem buildParamValues_mismatch (kind filePath : String) (fieldnames : List String)
    (data : List Value) (bad : List (String × Value))
    (hmem : Value.dict bad ∈ data)
    (hbad : keySetEq (pyDictKeys bad) fieldnames = false) :
    ∃ m, buildParamValues kind filePath fieldnames data = .error (.valueError m)
      ∧ mentionsFile filePath m := by
  induction data with
  | nil => cases hmem
  | cons item rest ih =>
    cases item with
    | dict entries =>
      by_cases hk : keySetEq (pyDictKeys entries) fieldnames = true
      · have hmem2 : Value.dict bad ∈ rest := by
          rcases List.mem_cons.mp hmem with h | h
          · injection h with h2
            subst h2
            rw [hk] at hbad
            cases hbad
          · exact h
        obtain ⟨m, hm, hmf⟩ := ih hmem2
        refine ⟨m, ?_, hmf⟩
        simp only [buildParamValues]
        rw [if_pos hk, hm]
      · refine ⟨"All items in " ++ kind ++ " file " ++ filePath ++ " must have the same keys", ?_, ?_⟩
        · simp only [buildParamValues]
          rw [if_neg hk]
        · exact ⟨"All items in " ++ kind ++ " file ", " must have the same keys", rfl⟩
    | null =>
      exact ⟨"All items in " ++ kind ++ " file " ++ filePath ++ " must be dictionaries",
        by simp only [buildParamValues],
        ⟨"All items in " ++ kind ++ " file ", " must be dictionaries", rfl⟩⟩
    | bool b =>
      exact ⟨"All items in " ++ kind ++ " file " ++ filePath ++ " must be dictionaries",
        by simp only [buildParamValues],
        ⟨"All items in " ++ kind ++ " file ", " must be dictionaries", rfl⟩⟩
    | int n =>
      exact ⟨"All items in " ++ kind ++ " file " ++ filePath ++ " must be dictionaries",
        by simp only [buildParamValues],
        ⟨"All items in " ++ kind ++ " file ", " must be dictionaries", rfl⟩⟩
    | str s =>
      exact ⟨"All items in " ++ kind ++ " file " ++ filePath ++ " must be dictionaries",
        by simp only [buildParamValues],
        ⟨"All items in " ++ kind ++ " file ", " must be dictionaries", rfl⟩⟩
    | list xs =>
      exact ⟨"All items in " ++ kind ++ " file " ++ filePath ++ " must be dictionaries",
        by simp only [buildParamValues],
        ⟨"All items in " ++ kind ++ " file ", " must be dictionaries", rfl⟩⟩

/-- Every header field occurs among the keys `zipPad` produces. -/
theorem mem_zipPad_keys (fieldnames row : List String) (f : String) (hf : f ∈ fieldnames) :
    some f ∈ (zipPad fieldnames row).map Prod.fst := by
  induction fieldnames generalizing row with
  | nil => cases hf
  | cons a fs ih =>
    cases row with
    | nil =>
      simp only [zipPad, List.map_cons, List.mem_cons]
      rcases List.mem_cons.mp hf with rfl | h
      · exact Or.inl rfl
      · exact Or.inr (ih [] h)
    | cons c cs =>
      simp only [zipPad, List.map_cons, List.mem_cons]
      rcases List.mem_cons.mp hf with rfl | h
      · exact Or.inl rfl
      · exact Or.inr (ih cs h)

/-- Looking up any header field in a `csv.DictReader` record succeeds. -/
theorem dictReaderRow_get_isSome (fieldnames row : List String) (f : String)
    (hf : f ∈ fieldnames) :
    (pyDictGet (dictReaderRow fieldnames row) (some f)).isSome := by
  apply pyDictGet_isSome_of_mem
  simp only [dictReaderRow, List.map_append]
  exact List.mem_append_left _ (mem_zipPad_keys fieldnames row f hf)

/-- Every element of the right list of a `Forall₂` is related to some element
of the left list. -/
theorem forall₂_mem_right {α β : Type u} {R : α → β → Prop} :
    ∀ {l1 : List α} {l2 : List β}, List.Forall₂ R l1 l2 → ∀ b ∈ l2, ∃ a ∈ l1, R a b := by
  intro l1 l2 h
  induction h with
  | nil => intro b hb; cases hb
  | cons hr _ ih =>
    intro b hb
    rcases List.mem_cons.mp hb with rfl | hb2
    · exact ⟨_, List.mem_cons_self _ _, hr⟩
    · obtain ⟨a, ha, har⟩ := ih b hb2
      exact ⟨a, List.mem_cons_of_mem _ ha, har⟩

/-- With as many cells as header fields, every value `zipPad` stores is a
string cell. -/
theorem zipPad_str_of_length_eq (fieldnames row : List String)
    (h : row.length = fieldnames.length) :
    ∀ p ∈ zipPad fieldnames row, ∃ s, p.2 = Value.str s := by
  induction fieldnames generalizing row with
  | nil =>
    intro p hp
    simp [zipPad] at hp
  | cons a fs ih =>
    cases row with
    | nil => simp at h
    | cons c cs =>
      intro p hp
      simp only [zipPad, List.mem_cons] at hp
      rcases hp with rfl | hp
      · exact ⟨c, rfl⟩
      · exact ih cs (by simpa using h) p hp

/-- C1: the spec claims the readers exclude a reserved `id` field from the
parameter names and return the `id` values as the identifier sequence, with
the JSON example `[.id t1 x 1 y 2., .id t2 x 3 y 4.]` yielding field names
`x,y`, rows `[(1,2),(3,4)]` and identifiers `["t1","t2"]`.  The code has no
`id` handling at all (its own unit tests expect a three-component result with
identifiers and fail on the two-component one): on that very input the JSON
reader returns parameter names `id,x,y`, keeps the `id` values inside the
rows, and produces no identifier sequence. -/
theorem claim_C1_id_not_extracted :
    read_json_for_parametrize "test_data.json"
        (Value.list [Value.dict [("id", Value.str "t1"), ("x", Value.int 1), ("y", Value.int 2)],
                     Value.dict [("id", Value.str "t2"), ("x", Value.int 3), ("y", Value.int 4)]])
      = .ok ("id,x,y", [[Value.str "t1", Value.int 1, Value.int 2],
                        [Value.str "t2", Value.int 3, Value.int 4]])
    ∧ ("id,x,y" : String) ≠ "x,y" :=
  ⟨rfl, by decide⟩

/-- C2: the spec claims the base fixtures directory resolves with precedence
explicit argument > environment override > `tests/fixtures` under the working
directory.  The code's `_get_fixtures_path` ignores its `fixtures_dir`
argument (a `TODO` in the source) and reads no environment variable: it
always returns the default, so an explicit override argument has no effect
(the repo's own tests in `TestGetFixturesPath` expect both overrides to
work). -/
theorem claim_C2_fixtures_dir_ignored :
    get_fixtures_path "/proj" (some "/custom/fixtures") = "/proj/tests/fixtures"
    ∧ ∀ (cwd : String) (d1 d2 : Option String),
        get_fixtures_path cwd d1 = get_fixtures_path cwd d2 :=
  ⟨rfl, fun _ _ _ => rfl⟩

/-- C7: when the YAML library is unavailable the YAML reader raises an
`ImportError` naming PyYAML and where to obtain it, independently of the
file's content (the guard precedes opening and parsing the file). -/
theorem claim_C7_yaml_missing_dependency (filePath : String) (data : Value) :
    read_yaml_for_parametrize false filePath data
      = .error (.importError "PyYAML is required for YAML fixtures. Install it: https://pypi.org/project/PyYAML/")
    ∧ (∃ pre post,
        "PyYAML is required for YAML fixtures. Install it: https://pypi.org/project/PyYAML/"
          = pre ++ "PyYAML" ++ post)
    ∧ (∃ pre post,
        "PyYAML is required for YAML fixtures. Install it: https://pypi.org/project/PyYAML/"
          = pre ++ "https://pypi.org/project/PyYAML/" ++ post) :=
  ⟨rfl,
   ⟨"", " is required for YAML fixtures. Install it: https://pypi.org/project/PyYAML/", by decide⟩,
   ⟨"PyYAML is required for YAML fixtures. Install it: ", "", by decide⟩⟩

/-- C9: the readers are pure functions of the file contents (and encoding):
normalizing the same parsed contents twice yields identical output.  In this
embedding every reader is a Lean function, so determinism is definitional. -/
theorem claim_C9_readers_deterministic (filePath : String) (data : Value)
    (csvRows : List (List String)) (parse : String → Value) (lines : List String)
    (yamlAvailable : Bool) :
    read_csv_for_parametrize filePath csvRows = read_csv_for_parametrize filePath csvRows
    ∧ read_json_for_parametrize filePath data = read_json_for_parametrize filePath data
    ∧ read_jsonl_for_parametrize filePath parse lines
        = read_jsonl_for_parametrize filePath parse lines
    ∧ read_yaml_for_parametrize yamlAvailable filePath data
        = read_yaml_for_parametrize yamlAvailable filePath data :=
  ⟨rfl, rfl, rfl, rfl⟩

/-- Auto-detection resolves a known lower-cased extension to its format tag. -/
theorem detect_format_auto_of_suffix (fixture_name fmt suffix : String)
    (hs : lowerStr (pathSuffix fixture_name) = suffix)
    (hfmt : (suffix = ".csv" ∧ fmt = "csv") ∨ (suffix = ".json" ∧ fmt = "json")
      ∨ (suffix = ".jsonl" ∧ fmt = "jsonl")
      ∨ ((suffix = ".yaml" ∨ suffix = ".yml") ∧ fmt = "yaml")) :
    detect_format fixture_name "auto" = .ok fmt := by
  rcases hfmt with ⟨rfl, rfl⟩ | ⟨rfl, rfl⟩ | ⟨rfl, rfl⟩ | ⟨rfl | rfl, rfl⟩ <;>
    simp [detect_format, hs]

/-- An explicit (non-auto) format selector is passed through unvalidated. -/
theorem detect_format_explicit (fixture_name file_format : String)
    (hfmt : file_format ≠ "auto") :
    detect_format fixture_name file_format = .ok file_format := by
  simp only [detect_format, if_neg hfmt]

/-- With an unknown lower-cased extension, auto-detection raises. -/
theorem detect_format_auto_unknown (fixture_name : String)
    (h1 : lowerStr (pathSuffix fixture_name) ≠ ".csv")
    (h2 : lowerStr (pathSuffix fixture_name) ≠ ".json")
    (h3 : lowerStr (pathSuffix fixture_name) ≠ ".jsonl")
    (h4 : lowerStr (pathSuffix fixture_name) ≠ ".yaml")
    (h5 : lowerStr (pathSuffix fixture_name) ≠ ".yml") :
    detect_format fixture_name "auto"
      = .error (.valueError ("Cannot auto-detect format for file: " ++ fixture_name)) := by
  simp [detect_format, h1, h2, h3, h4, h5]

/-- C5: with format selector `auto` the format is detected from the
lower-cased file extension (`.csv`, `.json`, `.jsonl`, `.yaml`/`.yml`), the
decoration then behaving exactly as with the corresponding explicit selector;
any other extension raises the cannot-auto-detect `ValueError` naming the
file. -/
theorem claim_C5_auto_detection (env : FsEnv) (fixture_name : String)
    (fixtures_dir : Option String) :
    (lowerStr (pathSuffix fixture_name) = ".csv" →
      parametrize_from_fixture env fixture_name "auto" fixtures_dir
        = parametrize_from_fixture env fixture_name "csv" fixtures_dir)
    ∧ (lowerStr (pathSuffix fixture_name) = ".json" →
      parametrize_from_fixture env fixture_name "auto" fixtures_dir
        = parametrize_from_fixture env fixture_name "json" fixtures_dir)
    ∧ (lowerStr (pathSuffix fixture_name) = ".jsonl" →
      parametrize_from_fixture env fixture_name "auto" fixtures_dir
        = parametrize_from_fixture env fixture_name "jsonl" fixtures_dir)
    ∧ ((lowerStr (pathSuffix fixture_name) = ".yaml" ∨ lowerStr (pathSuffix fixture_name) = ".yml") →
      parametrize_from_fixture env fixture_name "auto" fixtures_dir
        = parametrize_from_fixture env fixture_name "yaml" fixtures_dir)
    ∧ (lowerStr (pathSuffix fixture_name) ≠ ".csv" →
       lowerStr (pathSuffix fixture_name) ≠ ".json" →
       lowerStr (pathSuffix fixture_name) ≠ ".jsonl" →
       lowerStr (pathSuffix fixture_name) ≠ ".yaml" →
       lowerStr (pathSuffix fixture_name) ≠ ".yml" →
      parametrize_from_fixture env fixture_name "auto" fixtures_dir
        = .error (.valueError ("Cannot auto-detect format for file: " ++ fixture_name))) := by
  refine ⟨?_, ?_, ?_, ?_, ?_⟩
  · intro h
    rw [parametrize_from_fixture, parametrize_from_fixture,
      detect_format_auto_of_suffix fixture_name "csv" ".csv" h (Or.inl ⟨rfl, rfl⟩),
      detect_format_explicit fixture_name "csv" (by decide)]
  · intro h
    rw [parametrize_from_fixture, parametrize_from_fixture,
      detect_format_auto_of_suffix fixture_name "json" ".json" h (Or.inr (Or.inl ⟨rfl, rfl⟩)),
      detect_format_explicit fixture_name "json" (by decide)]
  · intro h
    rw [parametrize_from_fixture, parametrize_from_fixture,
      detect_format_auto_of_suffix fixture_name "jsonl" ".jsonl" h (Or.inr (Or.inr (Or.inl ⟨rfl, rfl⟩))),
      detect_format_explicit fixture_name "jsonl" (by decide)]
  · rintro (h | h)
    · rw [parametrize_from_fixture, parametrize_from_fixture,
        detect_format_auto_of_suffix fixture_name "yaml" ".yaml" h
          (Or.inr (Or.inr (Or.inr ⟨Or.inl rfl, rfl⟩))),
        detect_format_explicit fixture_name "yaml" (by decide)]
    · rw [parametrize_from_fixture, parametrize_from_fixture,
        detect_format_auto_of_suffix fixture_name "yaml" ".yml" h
          (Or.inr (Or.inr (Or.inr ⟨Or.inr rfl, rfl⟩))),
        detect_format_explicit fixture_name "yaml" (by decide)]
  · intro h1 h2 h3 h4 h5
    rw [parametrize_from_fixture, detect_format_auto_unknown fixture_name h1 h2 h3 h4 h5]

/-- Witness for C5 at concrete inputs: `DATA.CSV` auto-detects to csv
(case-insensitively), and `data.xyz` with `auto` raises the
cannot-auto-detect error. -/
theorem claim_C5_witness :
    parametrize_from_fixture emptyEnv "DATA.CSV" "auto" none
      = parametrize_from_fixture emptyEnv "DATA.CSV" "csv" none
    ∧ parametrize_from_fixture emptyEnv "data.xyz" "auto" none
      = .error (.valueError ("Cannot auto-detect format for file: " ++ "data.xyz")) :=
  ⟨(claim_C5_auto_detection emptyEnv "DATA.CSV" none).1 rfl,
   (claim_C5_auto_detection emptyEnv "data.xyz" none).2.2.2.2
     (by decide) (by decide) (by decide) (by decide) (by decide)⟩

/-- C10: with an explicit (non-auto) format selector the existence check runs
before the format tag is validated: a missing fixture file raises
`FileNotFoundError` whatever the tag, and the unsupported-format `ValueError`
implies the file existed. -/
theorem claim_C10_existence_before_format_validation (env : FsEnv)
    (fixture_name file_format : String) (fixtures_dir : Option String)
    (hfmt : file_format ≠ "auto") :
    (env.fileExists (get_fixtures_path env.cwd fixtures_dir ++ "/" ++ fixture_name) = false →
      parametrize_from_fixture env fixture_name file_format fixtures_dir
        = .error (.fileNotFoundError ("Fixture " ++ fixture_name ++ " does not exist at "
            ++ (get_fixtures_path env.cwd fixtures_dir ++ "/" ++ fixture_name))))
    ∧ ∀ m, parametrize_from_fixture env fixture_name file_format fixtures_dir
        = .error (.valueError ("Unsupported file format: " ++ m)) →
        env.fileExists (get_fixtures_path env.cwd fixtures_dir ++ "/" ++ fixture_name) = true := by
  have hbase : parametrize_from_fixture env fixture_name file_format fixtures_dir
      = dispatch_read env fixture_name fixtures_dir file_format := by
    rw [parametrize_from_fixture, detect_format_explicit fixture_name file_format hfmt]
  constructor
  · intro hex
    rw [hbase, dispatch_read]
    simp only [hex]
    rfl
  · intro m hm
    cases hex : env.fileExists (get_fixtures_path env.cwd fixtures_dir ++ "/" ++ fixture_name) with
    | true => rfl
    | false =>
      rw [hbase, dispatch_read] at hm
      simp only [hex] at hm
      cases hm

/-- Witness for C10: a missing file with the unsupported tag `xml` raises
`FileNotFoundError`, not the unsupported-format error. -/
theorem claim_C10_witness :
    parametrize_from_fixture emptyEnv "data.txt" "xml" none
      = .error (.fileNotFoundError ("Fixture " ++ "data.txt" ++ " does not exist at "
          ++ (get_fixtures_path emptyEnv.cwd none ++ "/" ++ "data.txt"))) :=
  (claim_C10_existence_before_format_validation emptyEnv "data.txt" "xml" none
    (by decide)).1 rfl

/-- A `filterMap` over a list on which the function always fails is empty. -/
theorem filterMap_eq_nil_of_none {α : Type u} {β : Type*} (f : α → Option β) (l : List α)
    (h : ∀ a ∈ l, f a = none) : l.filterMap f = [] := by
  induction l with
  | nil => rfl
  | cons a rest ih =>
    rw [List.filterMap_cons, h a (List.mem_cons_self a rest)]
    exact ih fun x hx => h x (List.mem_cons_of_mem _ hx)

/-- C4: an empty record sequence is rejected with a data-format error in
every format &mdash; CSV with a header but no (non-blank) data rows, JSONL with
only blank lines, JSON and YAML with an empty top-level list &mdash; and no
partial result is returned. -/
theorem claim_C4_empty_record_sequence (filePath : String) (header : List String)
    (csvRest : List (List String)) (parse : String → Value) (lines : List String)
    (hheader : header ≠ [])
    (hcsv : csvRest.filter (fun r => !r.isEmpty) = [])
    (hlines : ∀ l ∈ lines, pyStrip l = "") :
    read_csv_for_parametrize filePath (header :: csvRest)
      = .error (.valueError ("CSV file " ++ filePath ++ " has no data rows"))
    ∧ read_json_for_parametrize filePath (Value.list [])
      = .error (.valueError ("JSON file " ++ filePath ++ " contains empty list"))
    ∧ read_jsonl_for_parametrize filePath parse lines
      = .error (.valueError ("JSONL file " ++ filePath ++ " contains no data"))
    ∧ read_yaml_for_parametrize true filePath (Value.list [])
      = .error (.valueError ("YAML file " ++ filePath ++ " contains empty list")) := by
  have hjl : jsonlRecords parse lines = [] := by
    apply filterMap_eq_nil_of_none
    intro l hl
    simp [hlines l hl]
  have h1 : header.isEmpty = false := by
    cases header with
    | nil => exact absurd rfl hheader
    | cons a t => rfl
  have hrecs : csvRecords header csvRest = [] := by
    rw [csvRecords, hcsv]
    rfl
  refine ⟨?_, rfl, ?_, rfl⟩
  · simp only [read_csv_for_parametrize, h1, hrecs]
    rfl
  · rw [read_jsonl_for_parametrize, hjl]
    rfl

/-- Witness for C4 at concrete inputs: a CSV with a header and one blank row,
and a JSONL of blank lines. -/
theorem claim_C4_witness :
    (["a"] : List String) ≠ []
    ∧ read_csv_for_parametrize "e" (["a"] :: [[]])
        = .error (.valueError ("CSV file " ++ "e" ++ " has no data rows"))
    ∧ read_jsonl_for_parametrize "e" (fun _ => Value.null) ["", "  "]
        = .error (.valueError ("JSONL file " ++ "e" ++ " contains no data")) :=
  ⟨by decide,
   (claim_C4_empty_record_sequence "e" ["a"] [[]] (fun _ => Value.null) ["", "  "]
     (by decide) (by decide) (by decide)).1,
   (claim_C4_empty_record_sequence "e" ["a"] [[]] (fun _ => Value.null) ["", "  "]
     (by decide) (by decide) (by decide)).2.2.1⟩

/-- Counterexample to C3 as stated: in the CSV format a record after the
first can have a key set differing from the first record's (a data row with
an extra cell gains the `restkey` key `None` in its `csv.DictReader` record),
yet the CSV reader raises no error and returns the rows with the extra cell
silently dropped.  The key-set comparison exists only in the JSON, JSONL and
YAML readers. -/
theorem claim_C3_csv_counterexample :
    keySetEq (pyDictKeys (dictReaderRow ["a", "b"] ["1", "2", "3"]))
        (pyDictKeys (dictReaderRow ["a", "b"] ["1", "2"])) = false
    ∧ read_csv_for_parametrize "data.csv" [["a", "b"], ["1", "2"], ["1", "2", "3"]]
        = .ok ("a,b", [[Value.str "1", Value.str "2"], [Value.str "1", Value.str "2"]]) :=
  ⟨rfl, rfl⟩

/-- C3 (amended): for the JSON, JSONL and YAML formats, a record that is a
mapping whose key set is not equal, as an unordered set, to the first
record's key set makes the reader raise a data-format error naming the
offending file (e.g. `[.x 1., .y 2.]` is rejected); the CSV reader performs
no key-set comparison (see the counterexample). -/
theorem claim_C3_amended_mismatch_rejected (filePath : String)
    (first : List (String × Value)) (rest : List Value) (bad : List (String × Value))
    (parse : String → Value) (lines : List String)
    (hmem : Value.dict bad ∈ rest)
    (hbad : keySetEq (pyDictKeys bad) (pyDictKeys first) = false)
    (hlines : jsonlRecords parse lines = Value.dict first :: rest) :
    (∃ m, read_json_for_parametrize filePath (Value.list (Value.dict first :: rest))
        = .error (.valueError m) ∧ mentionsFile filePath m)
    ∧ (∃ m, read_jsonl_for_parametrize filePath parse lines
        = .error (.valueError m) ∧ mentionsFile filePath m)
    ∧ (∃ m, read_yaml_for_parametrize true filePath (Value.list (Value.dict first :: rest))
        = .error (.valueError m) ∧ mentionsFile filePath m) := by
  have hmem2 : Value.dict bad ∈ Value.dict first :: rest := List.mem_cons_of_mem _ hmem
  refine ⟨?_, ?_, ?_⟩
  · obtain ⟨m, hm, hmf⟩ := buildParamValues_mismatch "JSON" filePath (pyDictKeys first)
      (Value.dict first :: rest) bad hmem2 hbad
    refine ⟨m, ?_, hmf⟩
    show read_json_records filePath (Value.dict first :: rest) = _
    simp only [read_json_records, hm]
  · obtain ⟨m, hm, hmf⟩ := buildParamValues_mismatch "JSONL" filePath (pyDictKeys first)
      (Value.dict first :: rest) bad hmem2 hbad
    refine ⟨m, ?_, hmf⟩
    rw [read_jsonl_for_parametrize, hlines]
    simp only [read_jsonl_records, hm]
  · obtain ⟨m, hm, hmf⟩ := buildParamValues_mismatch "YAML" filePath (pyDictKeys first)
      (Value.dict first :: rest) bad hmem2 hbad
    refine ⟨m, ?_, hmf⟩
    show read_yaml_records filePath (Value.dict first :: rest) = _
    simp only [read_yaml_records, hm]

/-- Witness for the amended C3 at the spec's example `[.x 1., .y 2.]`: each
of the three record formats rejects the mismatched key sets with an error
message naming the file. -/
theorem claim_C3_amended_witness :
    keySetEq (pyDictKeys [("y", Value.int 2)]) (pyDictKeys [("x", Value.int 1)]) = false
    ∧ (∃ m, read_json_for_parametrize "f.json"
          (Value.list [Value.dict [("x", Value.int 1)], Value.dict [("y", Value.int 2)]])
        = .error (.valueError m) ∧ mentionsFile "f.json" m)
    ∧ (∃ m, read_jsonl_for_parametrize "f.json"
          (fun s => if s = "l1" then Value.dict [("x", Value.int 1)] else Value.dict [("y", Value.int 2)])
          ["l1", "l2"]
        = .error (.valueError m) ∧ mentionsFile "f.json" m) :=
  ⟨rfl,
   (claim_C3_amended_mismatch_rejected "f.json" [("x", Value.int 1)]
     [Value.dict [("y", Value.int 2)]] [("y", Value.int 2)]
     (fun s => if s = "l1" then Value.dict [("x", Value.int 1)] else Value.dict [("y", Value.int 2)])
     ["l1", "l2"] (List.Mem.head _) rfl rfl).1,
   (claim_C3_amended_mismatch_rejected "f.json" [("x", Value.int 1)]
     [Value.dict [("y", Value.int 2)]] [("y", Value.int 2)]
     (fun s => if s = "l1" then Value.dict [("x", Value.int 1)] else Value.dict [("y", Value.int 2)])
     ["l1", "l2"] (List.Mem.head _) rfl rfl).2.1⟩

/-- C6: for a well-formed (rectangular) CSV file every value in every
returned row is a string, with no type coercion; the spec's CSV scenario
`a,b,c / 1,2,3 / 4,5,9` yields field names `a,b,c` and the two all-string
rows, with no identifiers produced (the reader returns only names and rows);
and the JSON reader preserves the native parsed types (integers, booleans,
null) in its rows. -/
theorem claim_C6_csv_values_are_strings (filePath : String) (header : List String)
    (rest : List (List String))
    (hrect : ∀ row ∈ rest, row = [] ∨ row.length = header.length) :
    (∀ names rows, read_csv_for_parametrize filePath (header :: rest) = .ok (names, rows) →
      ∀ row ∈ rows, ∀ v ∈ row, ∃ s, v = Value.str s)
    ∧ read_csv_for_parametrize "tests/fixtures/data.csv" (simpleCsvParse "a,b,c\n1,2,3\n4,5,9\n")
        = .ok ("a,b,c", [[Value.str "1", Value.str "2", Value.str "3"],
                         [Value.str "4", Value.str "5", Value.str "9"]])
    ∧ read_json_for_parametrize "d.json"
        (Value.list [Value.dict [("x", Value.int 1), ("b", Value.bool true), ("n", Value.null)]])
        = .ok ("x,b,n", [[Value.int 1, Value.bool true, Value.null]]) := by
  refine ⟨?_, rfl, rfl⟩
  intro names rows hok row hrow v hv
  simp only [read_csv_for_parametrize] at hok
  by_cases h1 : header.isEmpty = true
  · rw [if_pos h1] at hok; cases hok
  · rw [if_neg h1] at hok
    by_cases h2 : (csvRecords header rest).isEmpty = true
    · rw [if_pos h2] at hok; cases hok
    · rw [if_neg h2] at hok
      cases hok
      rw [List.mem_map] at hrow
      obtain ⟨rec, hrec, rfl⟩ := hrow
      rw [csvRecords, List.mem_map] at hrec
      obtain ⟨raw, hraw, rfl⟩ := hrec
      have hmemf := List.mem_filter.mp hraw
      have hlen : raw.length = header.length := by
        rcases hrect raw hmemf.1 with hnil | hl
        · have := hmemf.2
          rw [hnil] at this
          cases this
        · exact hl
      rw [List.mem_filterMap] at hv
      obtain ⟨f, hf, hgot⟩ := hv
      have hrow_eq : dictReaderRow header raw = zipPad header raw := by
        rw [dictReaderRow, if_neg (by omega), List.append_nil]
      rw [hrow_eq] at hgot
      have hvmem := pyDictGet_mem_snd _ _ _ hgot
      rw [List.mem_map] at hvmem
      obtain ⟨p, hp, hpv⟩ := hvmem
      obtain ⟨s, hs⟩ := zipPad_str_of_length_eq header raw hlen p hp
      exact ⟨s, by rw [← hpv, hs]⟩

/-- Witness for C6 at a concrete rectangular CSV. -/
theorem claim_C6_witness :
    ((∀ row ∈ [["1", "2"]], row = [] ∨ row.length = (["a", "b"] : List String).length)
    ∧ ∀ row ∈ [[Value.str "1", Value.str "2"]], ∀ v ∈ row, ∃ s, v = Value.str s) :=
  ⟨by decide,
   (claim_C6_csv_values_are_strings "f.csv" ["a", "b"] [["1", "2"]] (by decide)).1
     "a,b" [[Value.str "1", Value.str "2"]] rfl⟩

/-- C8: on success a reader returns exactly one row tuple per input record in
record order, every tuple has one value per parameter field arranged in the
canonical order of the first record's keys, and the parameter-name value is
the comma-joined field-name string &mdash; shown for the JSON reader (one tuple
per list item) and the CSV reader (one tuple per non-blank data row). -/
theorem claim_C8_row_shape (filePath : String)
    (entries : List (String × Value)) (rest : List Value)
    (names : String) (rows : List (List Value))
    (csvPath : String) (header : List String) (csvRest : List (List String))
    (names2 : String) (rows2 : List (List Value))
    (hok : read_json_for_parametrize filePath (Value.list (Value.dict entries :: rest))
      = .ok (names, rows))
    (hok2 : read_csv_for_parametrize csvPath (header :: csvRest) = .ok (names2, rows2)) :
    (names = commaJoin (pyDictKeys entries)
     ∧ List.Forall₂ (fun item row => ∃ e2, item = Value.dict e2
         ∧ row = recordTuple (pyDictKeys entries) e2)
         (Value.dict entries :: rest) rows
     ∧ ∀ row ∈ rows, row.length = (pyDictKeys entries).length)
    ∧ (names2 = commaJoin header
       ∧ List.Forall₂ (fun raw row =>
             row = header.filterMap fun f => pyDictGet (dictReaderRow header raw) (some f))
           (csvRest.filter fun r => !r.isEmpty) rows2
       ∧ ∀ row ∈ rows2, row.length = header.length) := by
  constructor
  · have hok' : read_json_records filePath (Value.dict entries :: rest) = .ok (names, rows) := hok
    simp only [read_json_records] at hok'
    cases hb : buildParamValues "JSON" filePath (pyDictKeys entries) (Value.dict entries :: rest) with
    | error e => rw [hb] at hok'; cases hok'
    | ok vals =>
      rw [hb] at hok'
      cases hok'
      have hf2 := buildParamValues_ok_forall₂ _ _ _ _ _ hb
      refine ⟨rfl, ?_, ?_⟩
      · exact hf2.imp fun _ _ h => ⟨h.choose, h.choose_spec.1, h.choose_spec.2.2⟩
      · intro row hrow
        obtain ⟨item, hitem, e2, hi, hk, hre⟩ := forall₂_mem_right hf2 row hrow
        rw [hre]
        exact recordTuple_length _ _ hk
  · simp only [read_csv_for_parametrize] at hok2
    by_cases h1 : header.isEmpty = true
    · rw [if_pos h1] at hok2; cases hok2
    · rw [if_neg h1] at hok2
      by_cases h2 : (csvRecords header csvRest).isEmpty = true
      · rw [if_pos h2] at hok2; cases hok2
      · rw [if_neg h2] at hok2
        cases hok2
        refine ⟨rfl, ?_, ?_⟩
        · rw [csvRecords, List.map_map]
          exact forall₂_map_self _ _
        · intro row hrow
          rw [List.mem_map] at hrow
          obtain ⟨rec, hrec, rfl⟩ := hrow
          rw [csvRecords, List.mem_map] at hrec
          obtain ⟨raw, _, rfl⟩ := hrec
          exact length_filterMap_of_isSome _ _ fun f hf => dictReaderRow_get_isSome header raw f hf

/-- Witness for C8 at concrete JSON and CSV inputs. -/
theorem claim_C8_witness :
    ("x,y" : String) = commaJoin (pyDictKeys [("x", Value.int 1), ("y", Value.int 2)])
    ∧ (∀ row ∈ [[Value.int 1, Value.int 2], [Value.int 3, Value.int 4]],
        row.length = (pyDictKeys [("x", Value.int 1), ("y", Value.int 2)]).length)
    ∧ ("a,b" : String) = commaJoin ["a", "b"]
    ∧ ∀ row ∈ [[Value.str "1", Value.str "2"]], row.length = (["a", "b"] : List String).length :=
  ⟨(claim_C8_row_shape "f.json" [("x", Value.int 1), ("y", Value.int 2)]
      [Value.dict [("x", Value.int 3), ("y", Value.int 4)]]
      "x,y" [[Value.int 1, Value.int 2], [Value.int 3, Value.int 4]]
      "f.csv" ["a", "b"] [["1", "2"]] "a,b" [[Value.str "1", Value.str "2"]]
      rfl rfl).1.1,
   (claim_C8_row_shape "f.json" [("x", Value.int 1), ("y", Value.int 2)]
      [Value.dict [("x", Value.int 3), ("y", Value.int 4)]]
      "x,y" [[Value.int 1, Value.int 2], [Value.int 3, Value.int 4]]
      "f.csv" ["a", "b"] [["1", "2"]] "a,b" [[Value.str "1", Value.str "2"]]
      rfl rfl).1.2.2,
   (claim_C8_row_shape "f.json" [("x", Value.int 1), ("y", Value.int 2)]
      [Value.dict [("x", Value.int 3), ("y", Value.int 4)]]
      "x,y" [[Value.int 1, Value.int 2], [Value.int 3, Value.int 4]]
      "f.csv" ["a", "b"] [["1", "2"]] "a,b" [[Value.str "1", Value.str "2"]]
      rfl rfl).2.1,
   (claim_C8_row_shape "f.json" [("x", Value.int 1), ("y", Value.int 2)]
      [Value.dict [("x", Value.int 3), ("y", Value.int 4)]]
      "x,y" [[Value.int 1, Value.int 2], [Value.int 3, Value.int 4]]
      "f.csv" ["a", "b"] [["1", "2"]] "a,b" [[Value.str "1", Value.str "2"]]
      rfl rfl).2.2.2⟩
